import Mathlib

/-!
Shallow embedding of the Journey Assist navigation front-end
(route comparator, alternative-route deduplication, intent parser
degradation chain, intent backend endpoint, and the page-level
navigation state machine), together with theorems settling the
frozen claims about it.

Numeric route quantities (meters, seconds) are embedded as exact
rationals.  JavaScript division of a nonnegative numerator by zero
is modelled explicitly (`Infinity` when the numerator is nonzero,
`NaN` when it is `0/0`), since the comparator divides by a route's
distance and duration without guarding them.
-/

namespace JourneyAssist

/-- Result of a JavaScript floating-point division whose operands are
nonnegative: either an ordinary (finite) value, positive infinity, or NaN. -/
inductive JsVal where
  | num (q : ℚ)
  | inf
  | nan
deriving DecidableEq, Repr

/-- JavaScript `Math.abs` on an exact rational. -/
def jsAbs (q : ℚ) : ℚ :=
  if q < 0 then -q else q

theorem jsAbs_eq_abs (q : ℚ) : jsAbs q = |q| := by
  unfold jsAbs
  rcases lt_or_ge q 0 with h | h
  · rw [if_pos h, abs_of_neg h]
  · rw [if_neg (not_lt.mpr h), abs_of_nonneg h]

/-- JavaScript division `x / y` for `x, y ≥ 0`: `0/0` is NaN, `x/0` with
`x ≠ 0` is `+Infinity`, otherwise the exact quotient. -/
def jsDiv (x y : ℚ) : JsVal :=
  if y = 0 then (if x = 0 then JsVal.nan else JsVal.inf) else JsVal.num (x / y)

/-- JavaScript comparison `v > c` for a division result `v`:
`Infinity > c` is true, `NaN > c` is false. -/
def JsVal.gtConst (v : JsVal) (c : ℚ) : Bool :=
  match v with
  | JsVal.num q => decide (c < q)
  | JsVal.inf => true
  | JsVal.nan => false

/-- A turn maneuver of a route step (`mapboxService.ts`). -/
structure Maneuver where
  type : String
  modifier : Option String
  location : ℚ × ℚ
deriving DecidableEq, Repr

/-- One step of a route (`RouteStep` in `mapboxService.ts`). -/
structure RouteStep where
  distance : ℚ
  duration : ℚ
  instruction : String
  maneuver : Maneuver
deriving DecidableEq, Repr

/-- A route (`Route` in `mapboxService.ts`): a polyline geometry plus leg
totals and steps. -/
structure Route where
  geometry : List (ℚ × ℚ)
  distance : ℚ
  duration : ℚ
  steps : List RouteStep
deriving DecidableEq, Repr

/-- `MapboxService.isSignificantlyDifferent` (`mapboxService.ts`, lines
80-86): routes differ significantly when the relative distance delta
(denominator `route1.distance`) exceeds 0.10 or the relative duration delta
(denominator `route1.duration`) exceeds 0.15, with JavaScript division
semantics at zero denominators. -/
def isSignificantlyDifferent (route1 route2 : Route) : Bool :=
  (jsDiv (jsAbs (route1.distance - route2.distance)) route1.distance).gtConst (0.10 : ℚ) ||
  (jsDiv (jsAbs (route1.duration - route2.duration)) route1.duration).gtConst (0.15 : ℚ)

/-- Sample reference route from the spec example: 10000 m, 1200 s. -/
def refRoute : Route := ⟨[(0, 0), (1, 1)], 10000, 1200, []⟩

/-- Spec example candidate A: 10500 m, 1250 s (5% and about 4% deltas). -/
def candA : Route := ⟨[(0, 0), (1, 1)], 10500, 1250, []⟩

/-- Spec example candidate B: 12000 m, 1200 s (20% distance delta). -/
def candB : Route := ⟨[(0, 0), (1, 1)], 12000, 1200, []⟩

/-- A fully degenerate route: zero distance and zero duration. -/
def zeroRoute : Route := ⟨[(0, 0)], 0, 0, []⟩

/-- A route of nonzero length used against the degenerate reference. -/
def shortRoute : Route := ⟨[(0, 0), (1, 1)], 5, 60, []⟩

/-- C1: for routes with positive reference distance and duration,
`isSignificantlyDifferent a b` is true exactly when the relative distance
delta exceeds 0.10 or the relative duration delta exceeds 0.15. -/
theorem isSignificantlyDifferent_spec (a b : Route)
    (hd : 0 < a.distance) (ht : 0 < a.duration) :
    isSignificantlyDifferent a b = true ↔
      |a.distance - b.distance| / a.distance > (0.10 : ℚ) ∨
      |a.duration - b.duration| / a.duration > (0.15 : ℚ) := by
  unfold isSignificantlyDifferent jsDiv
  rw [if_neg hd.ne', if_neg ht.ne']
  simp only [JsVal.gtConst, Bool.or_eq_true, decide_eq_true_eq, jsAbs_eq_abs]

/-- C1 witness: on the spec's example pairs, the 5%-distance/4%-duration
candidate is not significantly different and the 20%-distance candidate is. -/
theorem isSignificantlyDifferent_spec_witness :
    isSignificantlyDifferent refRoute candA = false ∧
    isSignificantlyDifferent refRoute candB = true :=
  ⟨by norm_num [isSignificantlyDifferent, refRoute, candA, jsDiv, jsAbs, JsVal.gtConst],
   (isSignificantlyDifferent_spec refRoute candB (by norm_num [refRoute])
       (by norm_num [refRoute])).mpr
     (Or.inl (by rw [← jsAbs_eq_abs]; norm_num [refRoute, candB, jsAbs]))⟩

/-- C9: with a zero-distance reference route, any route of nonzero length is
reported as different (division yields Infinity), and a comparison of two
fully zero routes is reported as not different (0/0 yields NaN). -/
theorem isSignificantlyDifferent_zero_spec (a b : Route)
    (hd : a.distance = 0) :
    (b.distance ≠ 0 → isSignificantlyDifferent a b = true) ∧
    (a.duration = 0 → b.distance = 0 → b.duration = 0 →
      isSignificantlyDifferent a b = false) := by
  constructor
  · intro hb
    have hnum : jsAbs (0 - b.distance) ≠ 0 := by
      rw [jsAbs_eq_abs]
      simpa [abs_eq_zero, zero_sub, neg_eq_zero] using hb
    unfold isSignificantlyDifferent jsDiv
    rw [hd, if_pos rfl, if_neg hnum]
    simp [JsVal.gtConst]
  · intro hat hbd hbt
    unfold isSignificantlyDifferent jsDiv
    rw [hd, hat, hbd, hbt]
    norm_num [jsAbs, JsVal.gtConst]

/-- C9 witness: the degenerate zero route is significantly different from a
5 m route, and not significantly different from itself. -/
theorem isSignificantlyDifferent_zero_spec_witness :
    isSignificantlyDifferent zeroRoute shortRoute = true ∧
    isSignificantlyDifferent zeroRoute zeroRoute = false :=
  ⟨(isSignificantlyDifferent_zero_spec zeroRoute shortRoute rfl).1
     (by norm_num [shortRoute]),
   (isSignificantlyDifferent_zero_spec zeroRoute zeroRoute rfl).2 rfl rfl rfl⟩

/-- One iteration of the duplicate filter in `handleModifyRoute`
(`page.tsx`, lines 103-111): candidate `alt` is appended unless some
already-kept route fails to be significantly different from it. -/
def dedupStep (uniqueRoutes : List Route) (alt : Route) : List Route :=
  if uniqueRoutes.any (fun existing => !(isSignificantlyDifferent existing alt)) then
    uniqueRoutes
  else
    uniqueRoutes ++ [alt]

/-- The in-order scan over the candidate list (`page.tsx`, lines 102-111). -/
def dedupScan (alternatives : List Route) : List Route :=
  alternatives.foldl dedupStep []

/-- The full alternative-route deduplication of `handleModifyRoute`
(`page.tsx`, lines 101-123): scan the candidates, then, when a current
route exists, keep only the survivors significantly different from it and
prepend the current route; without a current route the scan result is
returned as is. -/
def deduplicate (alternatives : List Route) (route : Option Route) : List Route :=
  match route with
  | some r =>
      r :: (dedupScan alternatives).filter (fun alt => isSignificantlyDifferent r alt)
  | none => dedupScan alternatives

theorem foldl_dedupStep_suffix (l : List Route) :
    ∀ acc : List Route, ∃ t, List.foldl dedupStep acc l = acc ++ t ∧ t.Sublist l := by
  induction l with
  | nil =>
      intro acc
      exact ⟨[], by simp, List.Sublist.refl _⟩
  | cons c l ih =>
      intro acc
      rw [List.foldl_cons]
      by_cases hc : acc.any (fun existing => !(isSignificantlyDifferent existing c)) = true
      · have hstep : dedupStep acc c = acc := by
          simp only [dedupStep, if_pos hc]
        rw [hstep]
        obtain ⟨t, ht, hs⟩ := ih acc
        exact ⟨t, ht, hs.cons c⟩
      · have hstep : dedupStep acc c = acc ++ [c] := by
          simp only [dedupStep, if_neg hc]
        rw [hstep]
        obtain ⟨t, ht, hs⟩ := ih (acc ++ [c])
        refine ⟨c :: t, ?_, hs.cons₂ c⟩
        rw [ht, List.append_assoc]
        rfl

theorem foldl_dedupStep_pairwise (l : List Route) :
    ∀ acc : List Route,
      acc.Pairwise (fun x y => isSignificantlyDifferent x y = true) →
      (List.foldl dedupStep acc l).Pairwise
        (fun x y => isSignificantlyDifferent x y = true) := by
  induction l with
  | nil =>
      intro acc h
      simpa using h
  | cons c l ih =>
      intro acc h
      rw [List.foldl_cons]
      by_cases hc : acc.any (fun existing => !(isSignificantlyDifferent existing c)) = true
      · have hstep : dedupStep acc c = acc := by
          simp only [dedupStep, if_pos hc]
        rw [hstep]
        exact ih acc h
      · have hstep : dedupStep acc c = acc ++ [c] := by
          simp only [dedupStep, if_neg hc]
        rw [hstep]
        apply ih
        rw [List.pairwise_append]
        refine ⟨h, List.pairwise_singleton _ _, ?_⟩
        intro x hx y hy
        rw [List.mem_singleton] at hy
        subst hy
        simp only [List.any_eq_true, Bool.not_eq_true', not_exists, not_and] at hc
        rcases Bool.eq_false_or_eq_true (isSignificantlyDifferent x y) with htc | hfc
        · exact htc
        · exact absurd hfc (hc x hx)

theorem dedupScan_append_singleton (xs : List Route) (c : Route) :
    dedupScan (xs ++ [c]) = dedupStep (dedupScan xs) c := by
  simp [dedupScan, List.foldl_append]

/-- C2: deduplication with a reference route puts the reference at element 0,
keeps candidates in their original order (a subsequence of the input), and
every kept route is significantly different from every route kept before it,
the reference included.  The final two conjuncts characterise the function
completely by recursion over the scan order and express that earlier
candidates win ties over later ones: the empty scan keeps only the
reference, and extending the candidate list by one later candidate `c`
leaves the result unchanged when `c` fails to be significantly different
from some earlier scan-kept route (the earlier route wins and `c` is
dropped), and otherwise appends `c` at the end exactly when it is also
significantly different from the reference. -/
theorem deduplicate_spec (alternatives : List Route) (r : Route) :
    (deduplicate alternatives (some r)).head? = some r ∧
    (deduplicate alternatives (some r)).tail.Sublist alternatives ∧
    (deduplicate alternatives (some r)).Pairwise
      (fun x y => isSignificantlyDifferent x y = true) ∧
    deduplicate [] (some r) = [r] ∧
    (∀ (xs : List Route) (c : Route),
      deduplicate (xs ++ [c]) (some r) =
        if (dedupScan xs).any
            (fun existing => !(isSignificantlyDifferent existing c)) = true then
          deduplicate xs (some r)
        else
          deduplicate xs (some r) ++
            (if isSignificantlyDifferent r c = true then [c] else [])) := by
  obtain ⟨t, ht, hs⟩ := foldl_dedupStep_suffix alternatives []
  have hscan : dedupScan alternatives = t := by simpa [dedupScan] using ht
  have hscanSub : (dedupScan alternatives).Sublist alternatives := hscan ▸ hs
  have hscanPW : (dedupScan alternatives).Pairwise
      (fun x y => isSignificantlyDifferent x y = true) :=
    foldl_dedupStep_pairwise alternatives [] List.Pairwise.nil
  refine ⟨rfl, ?_, ?_, ?_, ?_⟩
  · exact (List.filter_sublist _).trans hscanSub
  · show (r :: (dedupScan alternatives).filter
        (fun alt => isSignificantlyDifferent r alt)).Pairwise
        (fun x y => isSignificantlyDifferent x y = true)
    rw [List.pairwise_cons]
    refine ⟨?_, List.Pairwise.sublist (List.filter_sublist _) hscanPW⟩
    intro a ha
    exact (List.mem_filter.mp ha).2
  · simp [deduplicate, dedupScan]
  · intro xs c
    have hstep := dedupScan_append_singleton xs c
    by_cases hc : (dedupScan xs).any
        (fun existing => !(isSignificantlyDifferent existing c)) = true
    · rw [if_pos hc]
      have : dedupScan (xs ++ [c]) = dedupScan xs := by
        rw [hstep, dedupStep, if_pos hc]
      simp [deduplicate, this]
    · rw [if_neg hc]
      have : dedupScan (xs ++ [c]) = dedupScan xs ++ [c] := by
        rw [hstep, dedupStep, if_neg hc]
      by_cases hrc : isSignificantlyDifferent r c = true
      · simp [deduplicate, this, List.filter_append, hrc]
      · simp [deduplicate, this, List.filter_append, hrc]

/-- The page-level navigation state tag (`page.tsx`, line 14). -/
inductive NavigationState where
  | idle
  | searching
  | navigating
  | comparingRoutes
deriving DecidableEq, Repr

/-- A chosen destination (`page.tsx`, lines 16-19). -/
structure Destination where
  name : String
  coordinates : ℚ × ℚ
deriving DecidableEq, Repr

/-- The React state owned by the `Home` component (`page.tsx`, lines 22-28):
navigation state, destination, active route, alternative routes, selected
route index and the comparison-sheet flag. -/
structure Session where
  navigationState : NavigationState
  destination : Option Destination
  route : Option Route
  alternativeRoutes : List Route
  selectedRouteIndex : Nat
  showComparison : Bool
deriving DecidableEq, Repr

/-- The initial values of the `useState` hooks (`page.tsx`, lines 22-28). -/
def initialSession : Session :=
  ⟨NavigationState.idle, none, none, [], 0, false⟩

/-- A handler outcome: the updated session plus any `alert` messages shown
to the user during the handler. -/
structure HandlerResult where
  session : Session
  alerts : List String
deriving DecidableEq, Repr

/-- `handleStartNavigation` (`page.tsx`, lines 54-74) with the asynchronous
route fetch injected as an `Except` value.  The handler stores the
destination and enters `searching` before the fetch resolves; on success it
stores the route and enters `navigating`, on failure it returns to `idle`
and alerts. -/
def handleStartNavigation (s : Session) (dest : Destination)
    (fetch : Except Unit Route) : HandlerResult :=
  let s1 := { s with destination := some dest,
                     navigationState := NavigationState.searching }
  match fetch with
  | Except.ok calculatedRoute =>
      ⟨{ s1 with route := some calculatedRoute,
                 navigationState := NavigationState.navigating }, []⟩
  | Except.error _ =>
      ⟨{ s1 with navigationState := NavigationState.idle },
        ["Failed to calculate route. Please try again or select a different destination."]⟩

/-- `handleModifyRoute` (`page.tsx`, lines 76-145) with the alternatives
fetch injected as an `Except` value.  A missing destination aborts silently;
a failed fetch returns to `navigating` with an alert; a deduplicated list of
fewer than two routes returns to `navigating` with an alert; otherwise the
list is stored and the session enters `comparingRoutes`.  (Alert texts carry
the source wording with contractions expanded.) -/
def handleModifyRoute (s : Session) (fetch : Except Unit (List Route)) :
    HandlerResult :=
  if s.destination.isNone then ⟨s, []⟩
  else
    let s1 := { s with navigationState := NavigationState.searching }
    match fetch with
    | Except.error _ =>
        ⟨{ s1 with navigationState := NavigationState.navigating },
          ["Failed to find alternative routes. Please try again or rephrase your request."]⟩
    | Except.ok alternatives =>
        let allRoutes := deduplicate alternatives s1.route
        if allRoutes.length < 2 then
          ⟨{ s1 with navigationState := NavigationState.navigating },
            ["Unfortunately, there are not significantly different alternative routes available for this trip. The current route is already optimal for your preferences."]⟩
        else
          ⟨{ s1 with alternativeRoutes := allRoutes,
                     showComparison := true,
                     navigationState := NavigationState.comparingRoutes }, []⟩

/-- `handleConfirmRoute` (`page.tsx`, lines 147-153): adopt the selected
route when one was passed, close the comparison sheet, return to
`navigating`. -/
def handleConfirmRoute (s : Session) (selectedRoute : Option Route) : Session :=
  let s1 := match selectedRoute with
    | some r => { s with route := some r }
    | none => s
  { s1 with showComparison := false,
            navigationState := NavigationState.navigating }

/-- The `onSelectRoute` callback passed to `RouteComparison`
(`page.tsx`, lines 211-218): record the selected index and route, then
delegate to `handleConfirmRoute`.  The Keep Current button of the
comparison sheet invokes it with no route (`route-comparison.tsx`). -/
def onSelectRoute (s : Session) (selectedRoute : Option Route) : Session :=
  let s1 := match selectedRoute with
    | some r =>
        let index := (s.alternativeRoutes.findIdx? (fun x => x == r)).getD 0
        { s with selectedRouteIndex := index, route := some r }
    | none => s
  handleConfirmRoute s1 selectedRoute

/-- `handleBackToSearch` (`page.tsx`, lines 155-163): full reset of the
navigation state. -/
def handleBackToSearch (s : Session) : Session :=
  { s with navigationState := NavigationState.idle,
           destination := none,
           route := none,
           alternativeRoutes := [],
           selectedRouteIndex := 0,
           showComparison := false }

/-- A user-triggered event, with the outcome of any asynchronous fetch the
corresponding handler performs injected as data. -/
inductive Event where
  | startNavigation (dest : Destination) (fetch : Except Unit Route)
  | modifyRoute (fetch : Except Unit (List Route))
  | selectRoute (selectedRoute : Option Route)
  | backToSearch

/-- The condition under which each handler can fire: the component whose
interaction triggers it is rendered (`page.tsx`, lines 178, 187-195 and
207-220). -/
def eventEnabled (s : Session) : Event → Prop
  | Event.startNavigation _ _ => s.navigationState = NavigationState.idle
  | Event.modifyRoute _ =>
      s.navigationState = NavigationState.navigating ∧ s.route.isSome = true
  | Event.selectRoute _ =>
      s.showComparison = true ∧ s.alternativeRoutes ≠ []
  | Event.backToSearch =>
      s.navigationState = NavigationState.navigating ∧ s.route.isSome = true

/-- Dispatch an event to its handler. -/
def applyEvent (s : Session) : Event → HandlerResult
  | Event.startNavigation dest fetch => handleStartNavigation s dest fetch
  | Event.modifyRoute fetch => handleModifyRoute s fetch
  | Event.selectRoute r => ⟨onSelectRoute s r, []⟩
  | Event.backToSearch => ⟨handleBackToSearch s, []⟩

/-- Sessions reachable from the initial render through enabled events. -/
inductive Reachable : Session → Prop where
  | init : Reachable initialSession
  | step {s : Session} (e : Event) :
      Reachable s → eventEnabled s e → Reachable (applyEvent s e).session

/-- Structural facts maintained by every reachable session: an idle session
has no active route, and a navigating session (or an open comparison sheet)
has a destination. -/
def SessionInv (s : Session) : Prop :=
  (s.navigationState = NavigationState.idle → s.route = none) ∧
  (s.navigationState = NavigationState.navigating → s.destination.isSome = true) ∧
  (s.showComparison = true → s.destination.isSome = true)

theorem reachable_inv {s : Session} (h : Reachable s) : SessionInv s := by
  induction h with
  | init =>
      refine ⟨fun _ => rfl, fun hn => ?_, fun hc => ?_⟩
      · simp [initialSession] at hn
      · simp [initialSession] at hc
  | step e hr hen ih =>
      rename_i t
      obtain ⟨ih1, ih2, ih3⟩ := ih
      cases e with
      | startNavigation dest fetch =>
          have hidle : t.navigationState = NavigationState.idle := hen
          cases fetch with
          | ok r =>
              simp [SessionInv, applyEvent, handleStartNavigation]
          | error u =>
              refine ⟨fun _ => ?_, fun hn => ?_, fun _ => ?_⟩
              · simpa [applyEvent, handleStartNavigation] using ih1 hidle
              · simp [applyEvent, handleStartNavigation] at hn
              · simp [applyEvent, handleStartNavigation]
      | modifyRoute fetch =>
          have hen' : t.navigationState = NavigationState.navigating ∧
              t.route.isSome = true := hen
          obtain ⟨d, hd⟩ := Option.isSome_iff_exists.mp (ih2 hen'.1)
          cases fetch with
          | error u =>
              simp [SessionInv, applyEvent, handleModifyRoute, hd]
          | ok alternatives =>
              by_cases hlen : (deduplicate alternatives t.route).length < 2
              · simp [SessionInv, applyEvent, handleModifyRoute, hd, hlen]
              · simp [SessionInv, applyEvent, handleModifyRoute, hd, hlen]
      | selectRoute r0 =>
          have hen' : t.showComparison = true ∧ t.alternativeRoutes ≠ [] := hen
          have hdest := ih3 hen'.1
          cases r0 with
          | none =>
              simp [SessionInv, applyEvent, onSelectRoute, handleConfirmRoute, hdest]
          | some r =>
              simp [SessionInv, applyEvent, onSelectRoute, handleConfirmRoute, hdest]
      | backToSearch =>
          simp [SessionInv, applyEvent, handleBackToSearch]

/-- C3: a modification request on a reachable navigating session whose
deduplicated route list (reference included) has fewer than two entries ends
back in `navigating` with the active route unchanged, alerts the user, and
never reaches the comparing state. -/
theorem handleModifyRoute_no_alternative (s : Session) (alternatives : List Route)
    (hreach : Reachable s)
    (hnav : s.navigationState = NavigationState.navigating)
    (hlen : (deduplicate alternatives s.route).length < 2) :
    (handleModifyRoute s (Except.ok alternatives)).session.navigationState =
        NavigationState.navigating ∧
    (handleModifyRoute s (Except.ok alternatives)).session.route = s.route ∧
    (handleModifyRoute s (Except.ok alternatives)).alerts ≠ [] ∧
    (handleModifyRoute s (Except.ok alternatives)).session.navigationState ≠
        NavigationState.comparingRoutes := by
  obtain ⟨d, hd⟩ := Option.isSome_iff_exists.mp ((reachable_inv hreach).2.1 hnav)
  simp [handleModifyRoute, hd, hlen]

/-- A concrete destination used by witnesses. -/
def sampleDest : Destination := ⟨"Ferry Building", (-122, 37)⟩

/-- A concrete navigating session obtained by one successful destination
selection from the initial session. -/
def navSession : Session :=
  ⟨NavigationState.navigating, some sampleDest, some refRoute, [], 0, false⟩

theorem navSession_reachable : Reachable navSession :=
  Reachable.step (Event.startNavigation sampleDest (Except.ok refRoute))
    Reachable.init rfl

/-- C3 witness: on the concrete navigating session, a modification request
resolving to no alternatives ends back in `navigating`, keeps the route,
alerts, and does not enter the comparing state. -/
theorem handleModifyRoute_no_alternative_witness :
    (handleModifyRoute navSession (Except.ok [])).session.navigationState =
        NavigationState.navigating ∧
    (handleModifyRoute navSession (Except.ok [])).session.route = navSession.route ∧
    (handleModifyRoute navSession (Except.ok [])).alerts ≠ [] ∧
    (handleModifyRoute navSession (Except.ok [])).session.navigationState ≠
        NavigationState.comparingRoutes :=
  handleModifyRoute_no_alternative navSession [] navSession_reachable rfl
    (by norm_num [navSession, deduplicate, dedupScan])

/-- C6 counterexample: selecting a destination from the initial idle session
with a failing route fetch leaves the destination SET to the selected
destination; it is not cleared as the claim states. -/
theorem handleStartNavigation_failure_counterexample :
    (handleStartNavigation initialSession sampleDest
        (Except.error ())).session.destination = some sampleDest ∧
    (handleStartNavigation initialSession sampleDest
        (Except.error ())).session.destination ≠ none := by
  simp [handleStartNavigation, initialSession]

/-- C6 amended: from a reachable idle session, a successful fetch ends in
`navigating` with the route and destination set and no alert; a failing
fetch ends in `idle` with no active route and an alert shown, but the
destination remains set to the selected destination. -/
theorem handleStartNavigation_spec (s : Session) (dest : Destination)
    (hreach : Reachable s) (hidle : s.navigationState = NavigationState.idle) :
    (∀ r : Route,
      (handleStartNavigation s dest (Except.ok r)).session.navigationState =
          NavigationState.navigating ∧
      (handleStartNavigation s dest (Except.ok r)).session.route = some r ∧
      (handleStartNavigation s dest (Except.ok r)).session.destination = some dest ∧
      (handleStartNavigation s dest (Except.ok r)).alerts = []) ∧
    ((handleStartNavigation s dest (Except.error ())).session.navigationState =
        NavigationState.idle ∧
      (handleStartNavigation s dest (Except.error ())).session.route = none ∧
      (handleStartNavigation s dest (Except.error ())).session.destination =
          some dest ∧
      (handleStartNavigation s dest (Except.error ())).alerts ≠ []) := by
  have hroute : s.route = none := (reachable_inv hreach).1 hidle
  constructor
  · intro r
    simp [handleStartNavigation]
  · simp [handleStartNavigation, hroute]

/-- C6 witness: both outcomes of the amended specification at the initial
session and the sample destination. -/
theorem handleStartNavigation_spec_witness :
    (handleStartNavigation initialSession sampleDest
        (Except.ok refRoute)).session.navigationState =
      NavigationState.navigating ∧
    (handleStartNavigation initialSession sampleDest
        (Except.error ())).session.navigationState = NavigationState.idle :=
  ⟨((handleStartNavigation_spec initialSession sampleDest Reachable.init rfl).1
      refRoute).1,
   (handleStartNavigation_spec initialSession sampleDest Reachable.init rfl).2.1⟩

/-- A concrete comparing session with two stored alternative routes. -/
def compSession : Session :=
  ⟨NavigationState.comparingRoutes, some sampleDest, some refRoute,
    [refRoute, candB], 0, true⟩

/-- C7 counterexample: confirming an explicitly selected candidate keeps the
stored candidate list intact; `alternativeRoutes` is not cleared as the
claim states. -/
theorem onSelectRoute_counterexample :
    (onSelectRoute compSession (some candB)).alternativeRoutes =
      [refRoute, candB] ∧
    (onSelectRoute compSession (some candB)).alternativeRoutes ≠ [] := by
  simp [onSelectRoute, handleConfirmRoute, compSession]

/-- C7 amended: confirming from the comparison sheet sets the active route
to the explicitly selected candidate (keep-current leaves it unchanged),
returns to `navigating`, and dismisses the comparison sheet
(`showComparison` becomes false); the stored candidate list is left
unchanged rather than cleared. -/
theorem onSelectRoute_spec (s : Session) :
    (∀ r : Route, (onSelectRoute s (some r)).route = some r) ∧
    (onSelectRoute s none).route = s.route ∧
    (∀ sel : Option Route,
      (onSelectRoute s sel).navigationState = NavigationState.navigating ∧
      (onSelectRoute s sel).showComparison = false ∧
      (onSelectRoute s sel).alternativeRoutes = s.alternativeRoutes) := by
  refine ⟨fun r => ?_, ?_, fun sel => ?_⟩
  · simp [onSelectRoute, handleConfirmRoute]
  · simp [onSelectRoute, handleConfirmRoute]
  · cases sel with
    | none => simp [onSelectRoute, handleConfirmRoute]
    | some r => simp [onSelectRoute, handleConfirmRoute]

/-- Structured route-modification parameters (`llmService.ts`, lines 6-10);
`none` models an absent optional field. -/
structure RouteModificationParams where
  avoid : Option (List String)
  waypoints : Option (List (ℚ × ℚ))
  profile : Option String
deriving DecidableEq, Repr

/-- A route-modification request (`llmService.ts`, lines 12-19), with the
nested `currentRoute` object flattened into origin and destination. -/
structure RouteModificationRequest where
  userRequest : String
  origin : ℚ × ℚ
  destination : ℚ × ℚ
  currentParams : Option RouteModificationParams
deriving DecidableEq, Repr

/-- A route-modification response (`llmService.ts`, lines 21-24). -/
structure RouteModificationResponse where
  modifiedParams : RouteModificationParams
  explanation : String
deriving DecidableEq, Repr

/-- Character-list matching at the head: the first list starts the second. -/
def strMatchAt : List Char → List Char → Bool
  | [], _ => true
  | _ :: _, [] => false
  | p :: ps, c :: cs => p == c && strMatchAt ps cs

def strIncludesAux (pat : List Char) : List Char → Bool
  | [] => pat.isEmpty
  | c :: cs => strMatchAt pat (c :: cs) || strIncludesAux pat cs

/-- JavaScript `String.prototype.includes`: contiguous substring test. -/
def strIncludes (s pat : String) : Bool :=
  strIncludesAux pat.data s.data

/-- JavaScript `String.prototype.toLowerCase`, modelled as a per-character
lowering of the underlying character list. -/
def jsToLower (s : String) : String :=
  String.mk (s.data.map Char.toLower)

/-- `parseWithRules` (`llmService.ts`, lines 173-210): the always-available
rule-based matcher over the lower-cased utterance.  The branch order and the
produced parameters mirror the source; the Mapbox road-class tag emitted for
highways is `"motorway"`.  (Explanation texts carry the source wording with
contractions expanded.) -/
def parseWithRules (request : RouteModificationRequest) :
    RouteModificationResponse :=
  let userRequest := jsToLower request.userRequest
  let base : RouteModificationParams := ⟨none, none, some ("driving")⟩
  if strIncludes userRequest ("scenic") || strIncludes userRequest ("scenery") then
    ⟨{ base with avoid := some [("motorway")] },
      "I will route you through scenic backroads, avoiding highways."⟩
  else if strIncludes userRequest ("avoid highway") ||
      strIncludes userRequest ("no highway") then
    ⟨{ base with avoid := some [("motorway")] },
      "I will find a route that avoids highways."⟩
  else if strIncludes userRequest ("avoid toll") then
    ⟨{ base with avoid := some [("toll")] },
      "I will find a route that avoids toll roads."⟩
  else if strIncludes userRequest ("fastest") ||
      strIncludes userRequest ("quickest") then
    ⟨{ base with profile := some ("driving-traffic") },
      "I will find the fastest route considering traffic."⟩
  else if strIncludes userRequest ("shortest") then
    ⟨base, "I will find the shortest route."⟩
  else if strIncludes userRequest ("alternative") ||
      strIncludes userRequest ("different") then
    ⟨base, "I will find an alternative route for you."⟩
  else
    ⟨base, "I will modify your route based on your request."⟩

/-- True when the lower-cased utterance contains any phrase of the
rule-based matcher's ordered list. -/
def ruleKeywordHit (lower : String) : Bool :=
  (strIncludes lower ("scenic") || strIncludes lower ("scenery")) ||
  (strIncludes lower ("avoid highway") || strIncludes lower ("no highway")) ||
  strIncludes lower ("avoid toll") ||
  (strIncludes lower ("fastest") || strIncludes lower ("quickest")) ||
  strIncludes lower ("shortest") ||
  (strIncludes lower ("alternative") || strIncludes lower ("different"))

/-- Which strategy of the degradation chain produced a parse result. -/
inductive Provider where
  | openai
  | anthropic
  | rules
deriving DecidableEq, Repr

/-- The parsed JSON content of a successful LLM reply (`llmService.ts`,
lines 95-104 and 153-162); each field may be absent. -/
structure LLMContent where
  avoid : Option (List String)
  waypoints : Option (List (ℚ × ℚ))
  profile : Option String
  explanation : Option String
deriving DecidableEq, Repr

/-- The response assembly both LLM providers share (`llmService.ts`, lines
97-104 and 155-162): absent fields fall back to defaults. -/
def formatLLMResponse (content : LLMContent) : RouteModificationResponse :=
  ⟨⟨some (content.avoid.getD []), some (content.waypoints.getD []),
      some (content.profile.getD ("driving"))⟩,
    content.explanation.getD ("Route modified as requested.")⟩

/-- `parseWithOpenAI` (`llmService.ts`, lines 51-110) with the network call
injected: on any runtime failure the catch block falls back to
`parseWithRules`. -/
def parseWithOpenAI (request : RouteModificationRequest)
    (callResult : Except Unit LLMContent) :
    RouteModificationResponse × Provider :=
  match callResult with
  | Except.ok content => (formatLLMResponse content, Provider.openai)
  | Except.error _ => (parseWithRules request, Provider.rules)

/-- `parseWithAnthropic` (`llmService.ts`, lines 115-168) with the network
call injected: on any runtime failure the catch block falls back to
`parseWithRules`. -/
def parseWithAnthropic (request : RouteModificationRequest)
    (callResult : Except Unit LLMContent) :
    RouteModificationResponse × Provider :=
  match callResult with
  | Except.ok content => (formatLLMResponse content, Provider.anthropic)
  | Except.error _ => (parseWithRules request, Provider.rules)

/-- JavaScript truthiness of an optional environment string: absent or empty
strings are falsy. -/
def jsTruthyStr (v : Option String) : Bool :=
  match v with
  | none => false
  | some s => !(s == "")

/-- `parseRouteRequest` (`llmService.ts`, lines 31-46): pick OpenAI when its
key is configured, otherwise Anthropic when its key is configured, otherwise
the rule-based parser.  The two potential network-call outcomes are injected
as `Except` values. -/
def parseRouteRequest (openaiApiKey anthropicApiKey : Option String)
    (request : RouteModificationRequest)
    (openaiCall anthropicCall : Except Unit LLMContent) :
    RouteModificationResponse × Provider :=
  if jsTruthyStr openaiApiKey then parseWithOpenAI request openaiCall
  else if jsTruthyStr anthropicApiKey then parseWithAnthropic request anthropicCall
  else (parseWithRules request, Provider.rules)

/-- A concrete request containing the phrase avoid highways. -/
def reqAvoidHighways : RouteModificationRequest :=
  ⟨"avoid highways please", (0, 0), (1, 1), none⟩

/-- A concrete request containing the keyword scenic. -/
def reqScenic : RouteModificationRequest :=
  ⟨"make it more scenic", (0, 0), (1, 1), none⟩

/-- A concrete request matching no keyword of the rule-based matcher. -/
def reqNoKeyword : RouteModificationRequest :=
  ⟨"asdkjasd", (0, 0), (1, 1), none⟩

/-- C4 counterexample: on the utterance avoid highways please, the
rule-based matcher emits the Mapbox tag motorway, not the tag highway the
claim states. -/
theorem parseWithRules_highway_tag_counterexample :
    (parseWithRules reqAvoidHighways).modifiedParams.avoid = some [("motorway")] ∧
    (parseWithRules reqAvoidHighways).modifiedParams.avoid ≠ some [("highway")] := by
  decide

/-- C4 amended: the matcher is first-match-wins with one category per
request: any utterance whose lowering contains scenic yields
avoid = [motorway] with the driving profile (no second category) and a
non-empty explanation; any utterance containing avoid highway yields
avoid = [motorway] with a non-empty explanation; an utterance matching no
keyword leaves avoid and waypoints unset and produces the generic
explanation (the matcher is a total function, so it never throws). -/
theorem parseWithRules_matcher_spec (request : RouteModificationRequest) :
    (strIncludes (jsToLower request.userRequest) ("scenic") = true →
      (parseWithRules request).modifiedParams.avoid = some [("motorway")] ∧
      (parseWithRules request).modifiedParams.profile = some ("driving") ∧
      (parseWithRules request).explanation ≠ "") ∧
    (strIncludes (jsToLower request.userRequest) ("avoid highway") = true →
      (parseWithRules request).modifiedParams.avoid = some [("motorway")] ∧
      (parseWithRules request).explanation ≠ "") ∧
    (ruleKeywordHit (jsToLower request.userRequest) = false →
      (parseWithRules request).modifiedParams.avoid = none ∧
      (parseWithRules request).modifiedParams.waypoints = none ∧
      (parseWithRules request).explanation =
        "I will modify your route based on your request.") := by
  refine ⟨fun h1 => ?_, fun h2 => ?_, fun h3 => ?_⟩
  · refine ⟨?_, ?_, ?_⟩ <;> simp [parseWithRules, h1]
  · by_cases hc1 : (strIncludes (jsToLower request.userRequest) ("scenic") ||
        strIncludes (jsToLower request.userRequest) ("scenery")) = true
    · refine ⟨?_, ?_⟩ <;> simp [parseWithRules, hc1]
    · refine ⟨?_, ?_⟩ <;> simp [parseWithRules, hc1, h2]
  · simp only [ruleKeywordHit, Bool.or_eq_false_iff] at h3
    obtain ⟨⟨⟨⟨⟨h3a, h3b⟩, h3c⟩, h3d⟩, h3e⟩, h3f⟩ := h3
    refine ⟨?_, ?_, ?_⟩ <;>
      simp [parseWithRules, h3a, h3b, h3c, h3d, h3e, h3f]

/-- C4 witness: the amended specification applied to the concrete scenic
and no-keyword utterances. -/
theorem parseWithRules_matcher_spec_witness :
    (parseWithRules reqScenic).modifiedParams.avoid = some [("motorway")] ∧
    (parseWithRules reqNoKeyword).explanation =
      "I will modify your route based on your request." :=
  ⟨((parseWithRules_matcher_spec reqScenic).1 (by decide)).1,
   ((parseWithRules_matcher_spec reqNoKeyword).2.2 (by decide)).2.2⟩

/-- A concrete successful LLM reply used by counterexamples. -/
def sampleContent : LLMContent :=
  ⟨some [("motorway")], none, none, some ("ok")⟩

/-- C5 counterexample: with both provider keys configured and the OpenAI
call failing at runtime, the parser produces the rule-based result, not a
result of the secondary (Anthropic) provider, even though the Anthropic
call would have succeeded. -/
theorem parseRouteRequest_failure_counterexample :
    (parseRouteRequest (some ("sk-test-1")) (some ("sk-test-2")) reqScenic
        (Except.error ()) (Except.ok sampleContent)).2 = Provider.rules ∧
    (parseRouteRequest (some ("sk-test-1")) (some ("sk-test-2")) reqScenic
        (Except.error ()) (Except.ok sampleContent)).2 ≠ Provider.anthropic := by
  decide

theorem parseWithRules_wellformed (request : RouteModificationRequest) :
    (parseWithRules request).explanation ≠ "" ∧
    (parseWithRules request).modifiedParams.profile ≠ none := by
  simp only [parseWithRules]
  repeat' split
  all_goals constructor
  all_goals decide

/-- C5 amended: when the OpenAI key is configured (the primary strategy is
selected) and the OpenAI call fails at runtime, the parse for that request
falls back directly to the rule-based parser — skipping the Anthropic
provider — and still returns a structurally valid result (non-empty
explanation, profile set); a later request whose OpenAI call succeeds is
served by OpenAI again. -/
theorem parseRouteRequest_primary_failure_spec (openaiApiKey : String)
    (hk : openaiApiKey ≠ "") (anthropicApiKey : Option String)
    (request : RouteModificationRequest)
    (anthropicCall : Except Unit LLMContent) :
    parseRouteRequest (some openaiApiKey) anthropicApiKey request
        (Except.error ()) anthropicCall = (parseWithRules request, Provider.rules) ∧
    (parseWithRules request).explanation ≠ "" ∧
    (parseWithRules request).modifiedParams.profile ≠ none ∧
    (∀ (request2 : RouteModificationRequest) (content : LLMContent)
        (anthropicCall2 : Except Unit LLMContent),
      parseRouteRequest (some openaiApiKey) anthropicApiKey request2
          (Except.ok content) anthropicCall2 =
        (formatLLMResponse content, Provider.openai)) := by
  have hkey : jsTruthyStr (some openaiApiKey) = true := by
    simp [jsTruthyStr, hk]
  refine ⟨?_, (parseWithRules_wellformed request).1,
    (parseWithRules_wellformed request).2, fun request2 content anthropicCall2 => ?_⟩
  · simp [parseRouteRequest, hkey, parseWithOpenAI]
  · simp [parseRouteRequest, hkey, parseWithOpenAI]

/-- C5 witness: the amended specification applied with a concrete key and
request. -/
theorem parseRouteRequest_primary_failure_spec_witness :
    parseRouteRequest (some ("sk-test-1")) none reqNoKeyword (Except.error ())
        (Except.error ()) = (parseWithRules reqNoKeyword, Provider.rules) :=
  (parseRouteRequest_primary_failure_spec ("sk-test-1") (by decide) none
      reqNoKeyword (Except.error ())).1

/-- The `currentRoute` object of a request body to the intent backend
endpoint; `none` models an absent JSON field. -/
structure CurrentRouteBody where
  origin : Option (ℚ × ℚ)
  destination : Option (ℚ × ℚ)
  currentParams : Option RouteModificationParams
deriving DecidableEq, Repr

/-- A parsed JSON request body of the intent backend endpoint. -/
structure PostBody where
  userRequest : Option String
  currentRoute : Option CurrentRouteBody
deriving DecidableEq, Repr

/-- An HTTP response of the endpoint: status code plus either an error body
or a result body. -/
structure HttpResponse where
  status : Nat
  errorMsg : Option String
  result : Option RouteModificationResponse
deriving DecidableEq, Repr

/-- JavaScript falsiness of `body.userRequest`: absent or the empty
string. -/
def jsFalsyStr (v : Option String) : Bool :=
  match v with
  | none => true
  | some s => s == ""

/-- The validation the endpoint performs before invoking the parser:
`userRequest` truthy and `currentRoute` present with origin and
destination. -/
def validBody (body : PostBody) : Bool :=
  !(jsFalsyStr body.userRequest) &&
  (match body.currentRoute with
   | none => false
   | some cr => cr.origin.isSome && cr.destination.isSome)

/-- The `POST` handler of the route-modification API route
(`app/api/route-modification/route.ts`, lines 4-34), with the parser
invocation injected as an `Except` value: missing `userRequest` or
`currentRoute` gives 400, missing origin or destination gives 400, a parser
result is returned with 200, and any internal failure gives 500 with a
fixed error body. -/
def POST (body : PostBody)
    (parseResult : Except Unit RouteModificationResponse) : HttpResponse :=
  match body.currentRoute with
  | none =>
      ⟨400, some ("Missing required fields: userRequest and currentRoute"), none⟩
  | some cr =>
      if jsFalsyStr body.userRequest then
        ⟨400, some ("Missing required fields: userRequest and currentRoute"), none⟩
      else if cr.origin.isNone || cr.destination.isNone then
        ⟨400, some ("Missing origin or destination in currentRoute"), none⟩
      else
        match parseResult with
        | Except.ok result => ⟨200, none, some result⟩
        | Except.error _ =>
            ⟨500, some ("Failed to process route modification request"), none⟩

/-- C8: a body failing validation is rejected with a 4xx response that is
independent of the parser outcome (the parser is never consulted) and
carries no result; a valid body returns the parser result with 200, and a
parser failure is reported as a 500 whose body is the fixed error string
(no credentials, no stack trace) with no result. -/
theorem POST_spec (body : PostBody) :
    (validBody body = false →
      ∀ p1 p2 : Except Unit RouteModificationResponse,
        POST body p1 = POST body p2 ∧
        400 ≤ (POST body p1).status ∧ (POST body p1).status < 500 ∧
        (POST body p1).result = none) ∧
    (validBody body = true →
      (∀ result : RouteModificationResponse,
        POST body (Except.ok result) = ⟨200, none, some result⟩) ∧
      (POST body (Except.error ())).status = 500 ∧
      (POST body (Except.error ())).errorMsg =
        some ("Failed to process route modification request") ∧
      (POST body (Except.error ())).result = none) := by
  constructor
  · intro hv p1 p2
    cases hcr : body.currentRoute with
    | none =>
        simp only [POST, hcr]
        norm_num
    | some cr =>
        cases hf : jsFalsyStr body.userRequest with
        | true =>
            simp only [POST, hcr, hf, if_true]
            norm_num
        | false =>
            cases ho : cr.origin with
            | none =>
                simp only [POST, hcr, hf, ho, Bool.false_eq_true, if_false,
                  Option.isNone_none, Bool.true_or, if_true]
                norm_num
            | some o =>
                cases hdd : cr.destination with
                | none =>
                    simp only [POST, hcr, hf, ho, hdd, Bool.false_eq_true,
                      if_false, Option.isNone_none, Option.isNone_some,
                      Bool.or_true, if_true]
                    norm_num
                | some dd =>
                    exfalso
                    simp [validBody, hcr, hf, ho, hdd] at hv
  · intro hv
    cases hcr : body.currentRoute with
    | none =>
        exfalso
        simp [validBody, hcr] at hv
    | some cr =>
        rw [validBody, hcr] at hv
        simp only [Bool.and_eq_true, Bool.not_eq_true'] at hv
        obtain ⟨hf, ho, hdd⟩ := hv
        obtain ⟨o, hoo⟩ := Option.isSome_iff_exists.mp ho
        obtain ⟨dd, hdd2⟩ := Option.isSome_iff_exists.mp hdd
        refine ⟨fun result => ?_, ?_, ?_, ?_⟩ <;>
          simp [POST, hcr, hf, hoo, hdd2]

/-- A concrete valid body for the endpoint witness. -/
def validPostBody : PostBody :=
  ⟨some ("avoid tolls"), some ⟨some (0, 0), some (1, 1), none⟩⟩

/-- A concrete invalid body (everything missing) for the endpoint witness. -/
def invalidPostBody : PostBody := ⟨none, none⟩

/-- A concrete parser response for the endpoint witness. -/
def sampleResponse : RouteModificationResponse :=
  ⟨⟨some [("toll")], none, some ("driving")⟩, "ok"⟩

/-- C8 witness: the specification applied to a concrete invalid body (the
response ignores the parser outcome) and a concrete valid body (internal
failure maps to 500). -/
theorem POST_spec_witness :
    POST invalidPostBody (Except.ok sampleResponse) =
      POST invalidPostBody (Except.error ()) ∧
    (POST validPostBody (Except.error ())).status = 500 :=
  ⟨((POST_spec invalidPostBody).1 (by decide) (Except.ok sampleResponse)
      (Except.error ())).1,
   ((POST_spec validPostBody).2 (by decide)).2.1⟩

end JourneyAssist
